import Mathlib

/-!
# Verification of the Pentago rules engine (`Pentago.py`)

This file is a shallow embedding of the Pentago game engine into Lean 4.

Modelling conventions:
* A board cell is a `Char` (`'.'`, `'W'`, `'B'`), matching the one-character
  strings used by the Python source.
* The 6x6 board is a `List (List Char)`, exactly as the Python source keeps
  `GameBoard._game_board` as a list of six row lists.
* Python list indexing `xs[i]` accepts `-len(xs) ≤ i < len(xs)`, with
  negative `i` counting from the end; anything else raises `IndexError`.
  `pyGetIdx` reproduces this, with `none` for the exception.  The negative
  case matters: `check_five_in_a_row` computes column indices down to `-2`.
* Python values that may be either a `bool` or a `str` (the game state
  stored in `_game_state`, and the value returned by `make_move` /
  `is_valid_move`) are modelled by the inductive type `PyVal`; Python's
  `==` on such mixed values is equality of `PyVal` (values built from
  different constructors are never equal, exactly as a Python `bool` never
  equals a `str`).
* Fallible code is modelled in `Option`: `none` stands for an uncaught
  Python exception (`KeyError`, `ValueError`, `IndexError`, `NameError`),
  which terminates the interpreter rather than returning a value.
-/

/-- A board cell: `'.'` empty, `'W'` white marble, `'B'` black marble. -/
abbrev Cell := Char

/-- The 6x6 main game board (`GameBoard._game_board`), a list of row lists. -/
abbrev Board := List (List Cell)

/-- A 3x3 sub-board window (`SubBoard.get_sub_board()`), as a function on
indices. -/
abbrev Window := Fin 3 → Fin 3 → Cell

/-- A dynamically typed Python value that is either a `bool` or a `str`;
used for `_game_state` and for the return values of `make_move` and
`is_valid_move`. -/
inductive PyVal where
  | bool : Bool → PyVal
  | str : String → PyVal
deriving DecidableEq

/-- Python list indexing `xs[i]`: indices in `[0, len)` read directly,
indices in `[-len, 0)` count from the end, anything else raises
`IndexError` (`none`). -/
def pyGetIdx (xs : List α) (i : Int) : Option α :=
  if 0 ≤ i then xs[i.toNat]?
  else if -(xs.length : Int) ≤ i then xs[(i + xs.length).toNat]?
  else none

/-- Reading `board[i][j]` with Python index semantics; `none` models an
`IndexError` in either dimension. -/
def pyAt (b : Board) (i j : Int) : Option Cell :=
  (pyGetIdx b i).bind fun row => pyGetIdx row j

/-- The freshly initialised board of `GameBoard.__init__`: six rows of six
`'.'` cells. -/
def emptyBoard : Board :=
  [['.', '.', '.', '.', '.', '.'],
   ['.', '.', '.', '.', '.', '.'],
   ['.', '.', '.', '.', '.', '.'],
   ['.', '.', '.', '.', '.', '.'],
   ['.', '.', '.', '.', '.', '.'],
   ['.', '.', '.', '.', '.', '.']]

/-- `GameBoard.update_game_board`: `self._game_board[row][col] = marble_color`.
`none` models the `IndexError` raised by an out-of-range index (the indices
produced by `convert_position` are never negative, so only the upper bound
can fail). -/
def update_game_board (b : Board) (marble : Cell) (position : Nat × Nat) :
    Option Board :=
  match b[position.1]? with
  | none => none
  | some rowL =>
    if position.2 < rowL.length then
      some (b.set position.1 (rowL.set position.2 marble))
    else none

/-- Reading `self._board.get_board()[row][column]` at the nonnegative
indices produced by `convert_position`; `none` models the `IndexError` on
an out-of-range index. -/
def boardGet (b : Board) (row column : Nat) : Option Cell :=
  pyAt b row column

/-- The anchor (start_row, start_col) of each sub-board, from the
`GameBoard.__init__` dictionary `self._sub_boards`; `none` models the
`KeyError` for an id outside `{1, 2, 3, 4}`. -/
def sub_board_anchor (n : Nat) : Option (Nat × Nat) :=
  if n = 1 then some (0, 0)
  else if n = 2 then some (0, 3)
  else if n = 3 then some (3, 0)
  else if n = 4 then some (3, 3)
  else none

/-- `SubBoard.get_sub_board`: read the 3x3 window at anchor `(sr, sc)` out
of the main board.  On the game's 6x6 board with the four dictionary
anchors every access is in range, so the `'.'` default of `getD` is never
used. -/
def readWindow (b : Board) (sr sc : Nat) : Window :=
  fun r c => (pyAt b (sr + r.val) (sc + c.val)).getD '.'

/-- Map over a list together with the element's index, starting the index
count at `n`.  (A structurally recursive index-aware map.) -/
def mapWithIdx (f : Nat → α → β) : Nat → List α → List β
  | _, [] => []
  | n, x :: xs => f n x :: mapWithIdx f (n + 1) xs

/-- Writing a 3x3 window back into the main board at anchor `(sr, sc)`
(the write-back loop at the end of `SubBoard.rotate`, and the inner loop of
`GameBoard.update_board_from_sub_boards`). -/
def writeWindow (b : Board) (sr sc : Nat) (w : Window) : Board :=
  mapWithIdx
    (fun i row =>
      mapWithIdx
        (fun j cell =>
          if h : sr ≤ i ∧ i < sr + 3 ∧ sc ≤ j ∧ j < sc + 3 then
            w ⟨i - sr, by omega⟩ ⟨j - sc, by omega⟩
          else cell)
        0 row)
    0 b

/-- The clockwise rotation table of `SubBoard.rotate` (`rotation == 'C'`),
transcribed row by row from the source. -/
def rotC (sub_board : Window) : Window :=
  ![![sub_board 2 0, sub_board 1 0, sub_board 0 0],
    ![sub_board 2 1, sub_board 1 1, sub_board 0 1],
    ![sub_board 2 2, sub_board 1 2, sub_board 0 2]]

/-- The counterclockwise rotation table of `SubBoard.rotate`
(`rotation == 'A'`), transcribed row by row from the source. -/
def rotA (sub_board : Window) : Window :=
  ![![sub_board 0 2, sub_board 1 2, sub_board 2 2],
    ![sub_board 0 1, sub_board 1 1, sub_board 2 1],
    ![sub_board 0 0, sub_board 1 0, sub_board 2 0]]

/-- `SubBoard.rotate`: read the window, rotate it, write it back.  For a
rotation character other than `'C'` or `'A'` the Python code's
`rotated_board` is never assigned and the final loop raises `NameError`,
modelled by `none`. -/
def SubBoard_rotate (b : Board) (sr sc : Nat) (rotation : Char) : Option Board :=
  let sub_board := readWindow b sr sc
  if rotation = 'C' then some (writeWindow b sr sc (rotC sub_board))
  else if rotation = 'A' then some (writeWindow b sr sc (rotA sub_board))
  else none

/-- `GameBoard.update_board_from_sub_boards`: for each sub-board in order,
read its window from the current main board and write it back to the same
anchor. -/
def update_board_from_sub_boards (b : Board) : Board :=
  [((0 : Nat), (0 : Nat)), (0, 3), (3, 0), (3, 3)].foldl
    (fun acc a => writeWindow acc a.1 a.2 (readWindow acc a.1 a.2)) b

/-- `GameBoard.rotate_sub_board`: look the sub-board up in the dictionary
(`KeyError` for ids outside 1..4 modelled by `none`), rotate it, then
update the main board from the sub-boards. -/
def rotate_sub_board (b : Board) (sub_board : Nat) (rotation : Char) :
    Option Board :=
  match sub_board_anchor sub_board with
  | none => none
  | some a =>
    match SubBoard_rotate b a.1 a.2 rotation with
    | none => none
    | some b2 => some (update_board_from_sub_boards b2)

/-- `GameBoard.is_full`: no row contains `'.'`. -/
def is_full (b : Board) : Bool :=
  b.all fun row => !(row.contains '.')

/-- The nested helper `check_five_in_a_row` of
`GameBoard.check_end_conditions`, transcribed loop by loop.  Note the last
loop (`for column in range(2, 6)`) computes `column - 4` down to `-2`,
which Python resolves as an index from the end of the row; `pyAt`
reproduces this. -/
def check_five_in_a_row (board : Board) (color : Cell) : Bool :=
  -- Check rows
  ((List.range 6).any fun row => (List.range 2).any fun column =>
    pyAt board row column == some color &&
    pyAt board row (column + 1) == some color &&
    pyAt board row (column + 2) == some color &&
    pyAt board row (column + 3) == some color &&
    pyAt board row (column + 4) == some color) ||
  -- Check columns
  ((List.range 6).any fun column => (List.range 2).any fun row =>
    pyAt board row column == some color &&
    pyAt board (row + 1) column == some color &&
    pyAt board (row + 2) column == some color &&
    pyAt board (row + 3) column == some color &&
    pyAt board (row + 4) column == some color) ||
  -- Check diagonals from top-left to bottom-right
  ((List.range 2).any fun row => (List.range 2).any fun column =>
    pyAt board row column == some color &&
    pyAt board (row + 1) (column + 1) == some color &&
    pyAt board (row + 2) (column + 2) == some color &&
    pyAt board (row + 3) (column + 3) == some color &&
    pyAt board (row + 4) (column + 4) == some color) ||
  -- Check diagonals from top-right to bottom-left: column runs over 2..5
  ((List.range 2).any fun row => (List.range' 2 4).any fun column =>
    pyAt board row column == some color &&
    pyAt board (row + 1) ((column : Int) - 1) == some color &&
    pyAt board (row + 2) ((column : Int) - 2) == some color &&
    pyAt board (row + 3) ((column : Int) - 3) == some color &&
    pyAt board (row + 4) ((column : Int) - 4) == some color)

/-- `GameBoard.check_end_conditions`: despite its docstring (which promises
one of the four status strings) it returns the *boolean* result of
`check_five_in_a_row` for the given color. -/
def check_end_conditions (b : Board) (current_player_color : Cell) : Bool :=
  if check_five_in_a_row b current_player_color then true else false

/-- The engine state (`Pentago.__init__` fields).  `current_player` and
`opponent` are `Option Cell`, with `none` for Python's `None`. -/
structure Pentago where
  board : Board
  current_player : Option Cell
  opponent : Option Cell
  game_state : PyVal
  game_log : List String
deriving DecidableEq

/-- A freshly constructed game (`Pentago.__init__`). -/
def pentago_init : Pentago :=
  { board := emptyBoard
    current_player := none
    opponent := none
    game_state := PyVal.str "UNFINISHED"
    game_log := [] }

/-- The dictionary `letter_conversion` of `Pentago.convert_position`;
`none` models the `KeyError` on a letter outside a..f. -/
def letter_conversion (c : Char) : Option Nat :=
  if c = 'a' then some 0
  else if c = 'b' then some 1
  else if c = 'c' then some 2
  else if c = 'd' then some 3
  else if c = 'e' then some 4
  else if c = 'f' then some 5
  else none

/-- Python's `int(...)` applied to the single character `position[1]`:
a decimal digit parses to its value (so `'6'`..`'9'` succeed), anything
else raises `ValueError`, modelled by `none`. -/
def pyInt (c : Char) : Option Nat :=
  if '0' ≤ c ∧ c ≤ '9' then some (c.toNat - '0'.toNat) else none

/-- `Pentago.convert_position`: row index from `letter_conversion` applied
to the lower-cased first character, column index from `int(position[1])`.
Strings shorter than two characters raise `IndexError` (`none`). -/
def convert_position (position : String) : Option (Nat × Nat) :=
  match position.data with
  | c0 :: c1 :: _ =>
    match letter_conversion c0.toLower with
    | none => none
    | some row_index =>
      match pyInt c1 with
      | none => none
      | some column_index => some (row_index, column_index)
  | _ => none

/-- `Pentago.is_valid_move`.  The checks run in source order: game state,
turn, then the occupancy read (whose `IndexError` on an out-of-range
column is modelled by `none`). -/
def is_valid_move (g : Pentago) (position : Nat × Nat) (player : Option Cell) :
    Option PyVal :=
  if g.game_state ≠ PyVal.str "UNFINISHED" then some (PyVal.str "game is finished")
  else if player = g.opponent then some (PyVal.str "not this player\x27s turn")
  else
    match boardGet g.board position.1 position.2 with
    | none => none
    | some cell =>
      if cell ≠ '.' then some (PyVal.str "position is not empty")
      else some (PyVal.bool true)

/-- Python's `str.upper()`, as a character-wise map over the string's
characters.  (Python's `upper` agrees with this character-wise ASCII
uppercasing on every string relevant here; the engine only ever compares
the result against `"WHITE"`.) -/
def pyUpper (s : String) : String := String.mk (s.data.map Char.toUpper)

/-- The marble normalization of `make_move`:
`marble_color = "W" if marble_color.upper() == "WHITE" else "B"`. -/
def mcolor (marble_color : String) : Cell :=
  if pyUpper marble_color = "WHITE" then 'W' else 'B'

/-- `Pentago.switch_player`. -/
def switch_player (g : Pentago) : Pentago :=
  if g.current_player = some 'B' then
    { g with current_player := some 'W', opponent := some 'B' }
  else if g.current_player = some 'W' then
    { g with current_player := some 'B', opponent := some 'W' }
  else g

/-- The dictionary `convert_color = {'W': 'WHITE', 'B': 'BLACK'}` of
`make_move`; `none` models a `KeyError`. -/
def convert_color (c : Cell) : Option String :=
  if c = 'W' then some "WHITE" else if c = 'B' then some "BLACK" else none

/-- The string representation of a Python tuple `(row, column)`, as
interpolated into the log entry. -/
def posRepr (p : Nat × Nat) : String :=
  "(" ++ toString p.1 ++ ", " ++ toString p.2 ++ ")"

/-- `GameLog.log_move`: the appended f-string, including the quirk that a
non-`'C'` rotation is rendered as `"A"` rather than `"Counterclockwise"`. -/
def log_move_entry (marble : Cell) (position : Nat × Nat) (sub_board : Nat)
    (rotation : Char) : String :=
  String.singleton marble ++ " was placed on " ++ posRepr position ++
    ", sub-board " ++ toString sub_board ++ " was rotated " ++
    (if rotation = 'C' then "Clockwise" else "A")

/-- `Pentago.make_move`, transcribed statement by statement.  The result is
`none` when the Python call raises, otherwise `some` of the final engine
state paired with the returned value (`True` or an error string).

Note the comparison `game_state != "UNFINISHED"` after the pre-rotation
check: `game_state` there is the *boolean* returned by
`check_end_conditions`, so the comparison is between a `bool` and a `str`
and is true for both booleans, exactly as in Python. -/
def make_move (g : Pentago) (marble_color : String) (position : String)
    (sub_board : Nat) (rotation : Char) : Option (Pentago × PyVal) :=
  -- position = self.convert_position(position)
  match convert_position position with
  | none => none
  | some pos =>
    -- marble normalization and current player update (before validation)
    let marble := mcolor marble_color
    let g1 : Pentago := { g with current_player := some marble }
    -- player = self.get_current_player(); validation
    match is_valid_move g1 pos g1.current_player with
    | none => none
    | some validation_result =>
      if validation_result ≠ PyVal.bool true then some (g1, validation_result)
      else
        -- self._board.update_game_board(marble_color, position)
        match update_game_board g1.board marble pos with
        | none => none
        | some b2 =>
          let g2 : Pentago := { g1 with board := b2 }
          -- game_state = self._board.check_end_conditions(marble_color)
          let game_state := check_end_conditions g2.board marble
          if PyVal.bool game_state ≠ PyVal.str "UNFINISHED" then
            some ({ g2 with game_state := PyVal.bool game_state }, PyVal.bool true)
          else
            -- everything below is unreachable: the guard above always holds
            match rotate_sub_board g2.board sub_board rotation with
            | none => none
            | some b3 =>
              let g3 : Pentago :=
                { g2 with board := update_board_from_sub_boards b3 }
              let current_player_win := check_end_conditions g3.board marble
              let opponent_color : Cell := if marble = 'B' then 'W' else 'B'
              let g4 : Pentago := { g3 with opponent := some opponent_color }
              let opponent_win := check_end_conditions g4.board opponent_color
              match convert_color marble with
              | none => none
              | some current_player_color =>
                match convert_color opponent_color with
                | none => none
                | some current_opponent_color =>
                  if current_player_win then
                    if opponent_win then
                      some ({ g4 with game_state := PyVal.str "DRAW" }, PyVal.bool true)
                    else
                      some ({ g4 with
                                game_state := PyVal.str (current_player_color ++ "_WON") },
                            PyVal.bool true)
                  else if opponent_win then
                    some ({ g4 with
                              game_state := PyVal.str (current_opponent_color ++ "_WON") },
                          PyVal.bool true)
                  else if is_full g4.board then
                    some ({ g4 with game_state := PyVal.str "DRAW" }, PyVal.bool true)
                  else
                    some (switch_player
                            { g4 with game_log :=
                                g4.game_log ++
                                  [log_move_entry marble pos sub_board rotation] },
                          PyVal.bool true)

example : convert_position "a2" = some (0, 2) := by decide
example : convert_position "a7" = some (0, 7) := by decide
example : convert_position "g3" = none := by decide
example : check_five_in_a_row emptyBoard 'W' = false := by decide

/-! ## Rotation algebra (claims C4 and C5) -/

/-- The index reversal `r ↦ 2 - r` on `Fin 3`. -/
def rev3 (r : Fin 3) : Fin 3 := ⟨2 - r.val, by omega⟩

/-- The multiset of the 9 cell values of a 3x3 window. -/
def cells (q : Window) : Multiset Cell :=
  Multiset.map (fun p : Fin 3 × Fin 3 => q p.1 p.2) Finset.univ.val

lemma rotC_apply (q : Window) (r c : Fin 3) : rotC q r c = q (rev3 c) r := by
  fin_cases r <;> fin_cases c <;> rfl

lemma rotA_apply (q : Window) (r c : Fin 3) : rotA q r c = q c (rev3 r) := by
  fin_cases r <;> fin_cases c <;> rfl

lemma cells_rotC (q : Window) : cells (rotC q) = cells q := by
  unfold cells
  have h1 : Multiset.map (fun p : Fin 3 × Fin 3 => rotC q p.1 p.2) Finset.univ.val
      = Multiset.map ((fun p : Fin 3 × Fin 3 => q p.1 p.2) ∘
          fun p : Fin 3 × Fin 3 => (rev3 p.2, p.1)) Finset.univ.val := by
    refine Multiset.map_congr rfl ?_
    intro p _
    exact rotC_apply q p.1 p.2
  have h2 : Multiset.map (fun p : Fin 3 × Fin 3 => (rev3 p.2, p.1)) Finset.univ.val
      = Finset.univ.val := by decide
  rw [h1, ← Multiset.map_map, h2]

lemma cells_rotA (q : Window) : cells (rotA q) = cells q := by
  unfold cells
  have h1 : Multiset.map (fun p : Fin 3 × Fin 3 => rotA q p.1 p.2) Finset.univ.val
      = Multiset.map ((fun p : Fin 3 × Fin 3 => q p.1 p.2) ∘
          fun p : Fin 3 × Fin 3 => (p.2, rev3 p.1)) Finset.univ.val := by
    refine Multiset.map_congr rfl ?_
    intro p _
    exact rotA_apply q p.1 p.2
  have h2 : Multiset.map (fun p : Fin 3 × Fin 3 => (p.2, rev3 p.1)) Finset.univ.val
      = Finset.univ.val := by decide
  rw [h1, ← Multiset.map_map, h2]

/-- Claim C4: for every 3x3 quadrant contents, rotating clockwise (`'C'`)
and then counterclockwise (`'A'`) restores the original contents exactly. -/
theorem claim_C4_rotation_roundtrip : ∀ q : Window, rotA (rotC q) = q := by
  intro q
  funext r c
  fin_cases r <;> fin_cases c <;> rfl

/-- Claim C5: clockwise rotation of a 3x3 window puts the old value at
`(r, c)` into the new position `(c, 2 - r)`, and the multiset of the 9 cell
values is invariant under rotation in either direction. -/
theorem claim_C5_rotation_formula_and_permutation :
    ∀ q : Window, (∀ r c : Fin 3, rotC q c (rev3 r) = q r c) ∧
      cells (rotC q) = cells q ∧ cells (rotA q) = cells q := by
  intro q
  refine ⟨?_, cells_rotC q, cells_rotA q⟩
  intro r c
  fin_cases r <;> fin_cases c <;> rfl

/-! ## Concrete game states used by the counterexamples and bug witnesses -/

/-- The board holding a single white marble at `(0, 2)` (position `"a2"`). -/
def bA2 : Board :=
  [['.', '.', 'W', '.', '.', '.'],
   ['.', '.', '.', '.', '.', '.'],
   ['.', '.', '.', '.', '.', '.'],
   ['.', '.', '.', '.', '.', '.'],
   ['.', '.', '.', '.', '.', '.'],
   ['.', '.', '.', '.', '.', '.']]

/-- The engine state actually produced by `make_move('white', 'a2', 1, 'C')`
on a fresh game: the marble is placed, but the game state becomes the
*boolean* `False` and no rotation, logging or turn switch happens. -/
def g_after_a2 : Pentago :=
  { pentago_init with
      board := bA2
      current_player := some 'W'
      game_state := PyVal.bool false }

/-- The board holding a single white marble at `(0, 1)` (position `"a1"`). -/
def bA1 : Board :=
  [['.', 'W', '.', '.', '.', '.'],
   ['.', '.', '.', '.', '.', '.'],
   ['.', '.', '.', '.', '.', '.'],
   ['.', '.', '.', '.', '.', '.'],
   ['.', '.', '.', '.', '.', '.'],
   ['.', '.', '.', '.', '.', '.']]

/-- The state after `make_move('white', 'a1', 1, 'C')` on a fresh game. -/
def g_after_a1 : Pentago :=
  { pentago_init with
      board := bA1
      current_player := some 'W'
      game_state := PyVal.bool false }

/-- A terminal state: black has won, black moved last.  Reachable through
the public setters (`set_game_state`, `set_current_player`,
`set_opponent`). -/
def g_black_won : Pentago :=
  { pentago_init with
      current_player := some 'B'
      opponent := some 'W'
      game_state := PyVal.str "BLACK_WON" }

/-- Claim C1 (refuted by the code): on a fresh game,
`make_move('white', 'a2', 1, 'C')` validates and places the marble, but
then — because the boolean returned by `check_end_conditions` is compared
against the string `"UNFINISHED"` — it stores the boolean `False` as the
game state and returns immediately: quadrant 1 is never rotated (the board
equals the placement-only board `bA2`), nothing is appended to the move
log, and the players are never switched. -/
theorem claim_C1_first_move_skips_rotation :
    make_move pentago_init "white" "a2" 1 'C' = some (g_after_a2, PyVal.bool true) ∧
    g_after_a2.game_state ≠ PyVal.str "UNFINISHED" ∧
    g_after_a2.game_log = [] ∧
    g_after_a2.opponent = none ∧
    g_after_a2.board = bA2 := by
  refine ⟨by decide, by decide, rfl, rfl, rfl⟩

/-- Claim C7 (refuted by the code): after White occupies `(0, 1)`, a second
move by Black onto the same cell is rejected with `"game is finished"` —
not with the occupied-cell error — because the first move already stored
the boolean `False` as the game state. -/
theorem claim_C7_occupied_cell_reports_game_finished :
    make_move pentago_init "white" "a1" 1 'C' = some (g_after_a1, PyVal.bool true) ∧
    make_move g_after_a1 "black" "a1" 1 'C' =
      some ({ g_after_a1 with current_player := some 'B' },
            PyVal.str "game is finished") ∧
    PyVal.str "game is finished" ≠ PyVal.str "position is not empty" := by
  refine ⟨by decide, by decide, by decide⟩

/-- Counterexample to claim C2: on a terminal state a rejected move still
mutates the engine — `make_move` overwrites `current_player` with the
caller's color *before* validating, so the returned state differs from the
input state. -/
theorem claim_C2_counterexample :
    make_move g_black_won "white" "a0" 1 'C' =
      some ({ g_black_won with current_player := some 'W' },
            PyVal.str "game is finished") ∧
    ({ g_black_won with current_player := some 'W' } : Pentago) ≠ g_black_won := by
  refine ⟨by decide, by decide⟩

/-- Counterexample to claim C6: the position `"a7"` has its digit outside
`0..5`, yet decoding does not fail at all — it returns the out-of-range
index pair `(0, 7)`. -/
theorem claim_C6_counterexample :
    convert_position "a7" ≠ none ∧ convert_position "a7" = some (0, 7) := by
  refine ⟨by decide, by decide⟩

/-! ## Claim C3: the five-in-a-row scan -/

/-- The five-in-a-row predicate as the spec describes it (claim C3), written
from the spec's words for comparison with `check_five_in_a_row`: a run of 5
contiguous same-colored cells entirely inside the 6x6 grid, scanning 2
start columns per row, 2 start rows per column, and 2x2 = 4 starting
positions per diagonal direction (for the down-left direction the four
in-grid starts are rows `{0, 1}` times columns `{4, 5}`).  All indices stay
inside the grid, so no run ever crosses the boundary. -/
def fiveInARow_spec (b : Board) (color : Cell) : Bool :=
  ((List.range 6).any fun row => (List.range 2).any fun col =>
    (List.range 5).all fun k => pyAt b row (col + k) == some color) ||
  ((List.range 6).any fun col => (List.range 2).any fun row =>
    (List.range 5).all fun k => pyAt b (row + k) col == some color) ||
  ((List.range 2).any fun row => (List.range 2).any fun col =>
    (List.range 5).all fun k => pyAt b (row + k) (col + k) == some color) ||
  ((List.range 2).any fun row => ([4, 5] : List Nat).any fun col =>
    (List.range 5).all fun k => pyAt b (row + k) ((col : Int) - k) == some color)

/-- White marbles at `(0,2), (1,1), (2,0), (3,5), (4,4)`: no in-grid run of
five exists, but the code's down-left diagonal scan starting at `(0, 2)`
walks through the negative indices `-1` and `-2`, which Python wraps to
columns `5` and `4`. -/
def b_wrap : Board :=
  [['.', '.', 'W', '.', '.', '.'],
   ['.', 'W', '.', '.', '.', '.'],
   ['W', '.', '.', '.', '.', '.'],
   ['.', '.', '.', '.', '.', 'W'],
   ['.', '.', '.', '.', 'W', '.'],
   ['.', '.', '.', '.', '.', '.']]

/-- Claim C3 (refuted by the code): `check_five_in_a_row` reports a win on
`b_wrap` even though no run of 5 contiguous white cells lies within the
grid — the down-left diagonal loop starts at columns 2..5 (8 start
positions, not 4) and its negative indices wrap to the right edge of the
board. -/
theorem claim_C3_wrapped_diagonal_false_positive :
    check_five_in_a_row b_wrap 'W' = true ∧ fiveInARow_spec b_wrap 'W' = false := by
  refine ⟨by decide, by decide⟩

/-! ## Claim C8: the simultaneous-win draw scenario -/

/-- White on `(5,0), (5,1), (5,2), (4,5)` and Black on
`(3,1), (3,2), (3,3), (4,3), (5,3)`; White to move. -/
def b_double : Board :=
  [['.', '.', '.', '.', '.', '.'],
   ['.', '.', '.', '.', '.', '.'],
   ['.', '.', '.', '.', '.', '.'],
   ['.', 'B', 'B', 'B', '.', '.'],
   ['.', '.', '.', 'B', '.', 'W'],
   ['W', 'W', 'W', 'B', '.', '.']]

/-- The game state holding `b_double` with White to move. -/
def g_double : Pentago :=
  { pentago_init with
      board := b_double
      current_player := some 'W'
      opponent := some 'B' }

/-- `b_double` after White places at `"f5"` = `(5, 5)`. -/
def b_double_placed : Board :=
  [['.', '.', '.', '.', '.', '.'],
   ['.', '.', '.', '.', '.', '.'],
   ['.', '.', '.', '.', '.', '.'],
   ['.', 'B', 'B', 'B', '.', '.'],
   ['.', '.', '.', 'B', '.', 'W'],
   ['W', 'W', 'W', 'B', '.', 'W']]

/-- `b_double_placed` after rotating sub-board 4 clockwise: White has five
in row 5 and Black has five in row 3 simultaneously. -/
def b_double_rotated : Board :=
  [['.', '.', '.', '.', '.', '.'],
   ['.', '.', '.', '.', '.', '.'],
   ['.', '.', '.', '.', '.', '.'],
   ['.', 'B', 'B', 'B', 'B', 'B'],
   ['.', '.', '.', '.', '.', '.'],
   ['W', 'W', 'W', 'W', 'W', '.']]

set_option maxHeartbeats 2000000 in
/-- Claim C8 (refuted by the code): in `g_double`, White's placement at
`(5, 5)` does not win pre-rotation, and rotating sub-board 4 clockwise
would give *both* players five-in-a-row — yet `make_move` never reaches its
DRAW branch: it stores the boolean `False` as the game state and returns
with the board unrotated. -/
theorem claim_C8_draw_branch_unreachable :
    check_end_conditions b_double_placed 'W' = false ∧
    rotate_sub_board b_double_placed 4 'C' = some b_double_rotated ∧
    fiveInARow_spec b_double_rotated 'W' = true ∧
    fiveInARow_spec b_double_rotated 'B' = true ∧
    check_end_conditions b_double_rotated 'W' = true ∧
    check_end_conditions b_double_rotated 'B' = true ∧
    make_move g_double "white" "f5" 4 'C' =
      some ({ g_double with board := b_double_placed, game_state := PyVal.bool false },
            PyVal.bool true) ∧
    PyVal.bool false ≠ PyVal.str "DRAW" := by
  refine ⟨by decide, by decide, by decide, by decide, by decide, by decide,
    by decide, by decide⟩

/-! ## General lemmas about `make_move` -/

lemma pyGetIdx_natCast (xs : List α) (n : Nat) : pyGetIdx xs (n : Int) = xs[n]? := by
  simp [pyGetIdx]

lemma boardGet_eq (b : Board) (r c : Nat) :
    boardGet b r c = b[r]?.bind fun row => row[c]? := by
  simp [boardGet, pyAt, pyGetIdx_natCast]

/-- On any state whose game state is not the string `"UNFINISHED"` — which
includes every state whose game state is a boolean — `make_move` with a
decodable position overwrites `current_player` with the caller's
(normalized) color and then fails with `"game is finished"`, leaving every
other field unchanged. -/
lemma make_move_terminal (g : Pentago) (marble_color position : String)
    (sub_board : Nat) (rotation : Char) (p : Nat × Nat)
    (hdec : convert_position position = some p)
    (hst : g.game_state ≠ PyVal.str "UNFINISHED") :
    make_move g marble_color position sub_board rotation =
      some ({ g with current_player := some (mcolor marble_color) },
            PyVal.str "game is finished") := by
  simp [make_move, hdec, is_valid_move, hst]

/-- Shape of every succeeding `make_move` call: the position decoded, the
marble was placed, and — because the post-placement guard compares a
boolean against a string and therefore always fires — the resulting state
is exactly the input state with the placed board, the normalized current
player and the boolean game state. -/
lemma make_move_success (g : Pentago) (marble_color position : String)
    (sub_board : Nat) (rotation : Char) (g2 : Pentago)
    (h : make_move g marble_color position sub_board rotation =
      some (g2, PyVal.bool true)) :
    ∃ p b2, convert_position position = some p ∧
      update_game_board g.board (mcolor marble_color) p = some b2 ∧
      g2 = { g with
               board := b2
               current_player := some (mcolor marble_color)
               game_state :=
                 PyVal.bool (check_end_conditions b2 (mcolor marble_color)) } := by
  rcases hdec : convert_position position with _ | p
  · simp [make_move, hdec] at h
  · rcases hval : is_valid_move { g with current_player := some (mcolor marble_color) }
        p (some (mcolor marble_color)) with _ | vr
    · simp [make_move, hdec, hval] at h
    · by_cases hvr : vr = PyVal.bool true
      · subst hvr
        rcases hupd : update_game_board g.board (mcolor marble_color) p with _ | b2
        · simp [make_move, hdec, hval, hupd] at h
        · refine ⟨p, b2, rfl, hupd, ?_⟩
          simp [make_move, hdec, hval, hupd] at h
          exact h.symm
      · simp [make_move, hdec, hval, hvr] at h

/-! ## Claims C2, C9, C10, C6 -/

/-- Claim C2, amended: once the game state is terminal (any value other
than the string `"UNFINISHED"`), every subsequent `make_move` call whose
position string decodes fails with `"game is finished"` and leaves the
board, opponent, game state and log unchanged — but it does *not* leave
the whole engine state unchanged: `current_player` is overwritten with the
caller's normalized color before validation runs. -/
theorem claim_C2_terminal_rejection (g : Pentago) (marble_color position : String)
    (sub_board : Nat) (rotation : Char) (p : Nat × Nat)
    (hdec : convert_position position = some p)
    (hterm : g.game_state ≠ PyVal.str "UNFINISHED") :
    make_move g marble_color position sub_board rotation =
      some ({ g with current_player := some (mcolor marble_color) },
            PyVal.str "game is finished") :=
  make_move_terminal g marble_color position sub_board rotation p hdec hterm

/-- Witness for claim C2's amended theorem at a concrete terminal state. -/
theorem claim_C2_witness :
    make_move g_black_won "white" "b3" 2 'A' =
      some ({ g_black_won with current_player := some 'W' },
            PyVal.str "game is finished") := by
  have h := claim_C2_terminal_rejection g_black_won "white" "b3" 2 'A' (1, 3)
    (by decide) (by decide)
  rw [show mcolor "white" = 'W' from by decide] at h
  exact h

/-- Claim C9: after every `make_move` call that passes validation and
places a marble, the stored game state is the boolean returned by
`check_end_conditions` (never one of the four documented status strings),
so it never equals `"UNFINISHED"` again; consequently every later
`make_move` call (with a decodable position string) fails with the
`"game is finished"` error. -/
theorem claim_C9_boolean_game_state (g : Pentago) (marble_color position : String)
    (sub_board : Nat) (rotation : Char) (g2 : Pentago)
    (hsucc : make_move g marble_color position sub_board rotation =
      some (g2, PyVal.bool true)) :
    g2.game_state =
      PyVal.bool (check_end_conditions g2.board (mcolor marble_color)) ∧
    ∀ (mc2 pos2 : String) (sb2 : Nat) (rot2 : Char) (p2 : Nat × Nat),
      convert_position pos2 = some p2 →
      make_move g2 mc2 pos2 sb2 rot2 =
        some ({ g2 with current_player := some (mcolor mc2) },
              PyVal.str "game is finished") := by
  obtain ⟨p, b2, hdec, hupd, hg2⟩ :=
    make_move_success g marble_color position sub_board rotation g2 hsucc
  subst hg2
  refine ⟨rfl, ?_⟩
  intro mc2 pos2 sb2 rot2 p2 hdec2
  exact make_move_terminal _ mc2 pos2 sb2 rot2 p2 hdec2 (by simp)

/-- Witness for claim C9: the successful first move of a fresh game, after
which a second move is rejected as `"game is finished"`. -/
theorem claim_C9_witness :
    make_move g_after_a2 "black" "b3" 2 'A' =
      some ({ g_after_a2 with current_player := some 'B' },
            PyVal.str "game is finished") := by
  have h := (claim_C9_boolean_game_state pentago_init "white" "a2" 1 'C'
      g_after_a2 (by decide)).2 "black" "b3" 2 'A' (1, 3) (by decide)
  rw [show mcolor "black" = 'B' from by decide] at h
  exact h

/-- Claim C10: `make_move` normalizes its color argument by comparing its
upper-casing with `"WHITE"`; every other color string — including arbitrary
invalid ones — is treated as Black, a black marble `'B'` is placed, and no
color validation rejects the call. -/
theorem claim_C10_nonwhite_plays_black (g : Pentago)
    (marble_color position : String) (sub_board : Nat) (rotation : Char)
    (p : Nat × Nat)
    (hup : pyUpper marble_color ≠ "WHITE")
    (hdec : convert_position position = some p)
    (hst : g.game_state = PyVal.str "UNFINISHED")
    (hturn : (some 'B' : Option Cell) ≠ g.opponent)
    (hcell : boardGet g.board p.1 p.2 = some '.') :
    ∃ g2 : Pentago,
      make_move g marble_color position sub_board rotation =
        some (g2, PyVal.bool true) ∧
      g2.current_player = some 'B' ∧
      boardGet g2.board p.1 p.2 = some 'B' := by
  have hmc : mcolor marble_color = 'B' := by
    unfold mcolor
    rw [if_neg hup]
  rw [boardGet_eq] at hcell
  rcases hrow : g.board[p.1]? with _ | rowL
  · rw [hrow] at hcell
    simp at hcell
  · rw [hrow] at hcell
    simp only [Option.some_bind] at hcell
    have hp2 : p.2 < rowL.length := by
      rcases List.getElem?_eq_some.mp hcell with ⟨hlt, _⟩
      exact hlt
    have hp1 : p.1 < g.board.length := by
      rcases List.getElem?_eq_some.mp hrow with ⟨hlt, _⟩
      exact hlt
    have hupd : update_game_board g.board (mcolor marble_color) p =
        some (g.board.set p.1 (rowL.set p.2 (mcolor marble_color))) := by
      simp [update_game_board, hrow, hp2]
    have hval : is_valid_move { g with current_player := some (mcolor marble_color) }
        p (some (mcolor marble_color)) = some (PyVal.bool true) := by
      simp only [is_valid_move, hst]
      rw [hmc]
      simp only [ne_eq, not_true_eq_false, if_false, if_neg hturn]
      rw [boardGet_eq]
      simp [hrow, hcell]
    refine ⟨{ g with
        board := g.board.set p.1 (rowL.set p.2 (mcolor marble_color))
        current_player := some (mcolor marble_color)
        game_state := PyVal.bool (check_end_conditions
          (g.board.set p.1 (rowL.set p.2 (mcolor marble_color)))
          (mcolor marble_color)) }, ?_, ?_, ?_⟩
    · simp [make_move, hdec, hval, hupd]
    · simp [hmc]
    · rw [boardGet_eq]
      simp [List.getElem?_set_self hp1, List.getElem?_set_self hp2, hmc]

/-- Witness for claim C10: the color string `"purple"` places a black
marble on a fresh board. -/
theorem claim_C10_witness :
    ∃ g2 : Pentago,
      make_move pentago_init "purple" "a0" 1 'C' = some (g2, PyVal.bool true) ∧
      g2.current_player = some 'B' ∧
      boardGet g2.board 0 0 = some 'B' :=
  claim_C10_nonwhite_plays_black pentago_init "purple" "a0" 1 'C' (0, 0)
    (by decide) (by decide) (by decide) (by decide) (by decide)

/-- Claim C6, amended: position decoding is *not* total-with-explicit-error.
For a string with at least two characters it fails — by raising
`KeyError`/`ValueError`, modelled as `none`, not by returning an
`InvalidPosition` result — exactly when the lower-cased first character is
outside a..f or the second character is not a decimal digit; a decimal
digit `'6'`..`'9'` is accepted and decodes to an out-of-range column. -/
theorem claim_C6_decoding_behaviour (c0 c1 : Char) (rest : List Char)
    (s : String) (hs : s.data = c0 :: c1 :: rest) :
    (letter_conversion c0.toLower = none ∨ pyInt c1 = none →
      convert_position s = none) ∧
    (∀ row_index column_index : Nat,
      letter_conversion c0.toLower = some row_index →
      pyInt c1 = some column_index →
      convert_position s = some (row_index, column_index)) := by
  constructor
  · intro h
    rcases h with h | h
    · simp [convert_position, hs, h]
    · rcases hl : letter_conversion c0.toLower with _ | r
      · simp [convert_position, hs, hl]
      · simp [convert_position, hs, hl, h]
  · intro row_index column_index h1 h2
    simp [convert_position, hs, h1, h2]

/-- Witness for claim C6's amended theorem: `"g7"` raises (letter out of
range), `"b5"` decodes, and `"a7"` decodes to an out-of-range column. -/
theorem claim_C6_witness :
    convert_position "g7" = none ∧ convert_position "b5" = some (1, 5) ∧
    convert_position "a7" = some (0, 7) := by
  refine ⟨?_, ?_, ?_⟩
  · exact (claim_C6_decoding_behaviour 'g' '7' [] "g7" (by decide)).1
      (Or.inl (by decide))
  · exact (claim_C6_decoding_behaviour 'b' '5' [] "b5" (by decide)).2 1 5
      (by decide) (by decide)
  · exact (claim_C6_decoding_behaviour 'a' '7' [] "a7" (by decide)).2 0 7
      (by decide) (by decide)
